import Mathlib

/-!
Shallow embedding of the ipcap GeoIP reader and proofs about its
specification claims.

Embedded sources: src/src/geo_ip_reader.rs, src/src/utils.rs,
src/src/constants.rs, src/src/designated_market_area.rs,
src/src/errors.rs, src/src/countries_codes_three.rs,
src/src/continent_names.rs.

Modelling conventions:
- the bytes of the database file are a total function from byte position
  to byte value;
- strings extracted from record buffers are kept as their raw byte lists
  (the Rust code decodes them with String::from_utf8_lossy, which acts
  bytewise here and is irrelevant to every claim);
- f64 coordinate arithmetic is modelled exactly over the rationals;
- a Rust panic (unwrap failure, index out of bounds, an explicit panic
  call) is modelled as a distinguished outcome value, never conflated
  with the error values of the crate's error enumeration.
-/

namespace Ipcap

set_option maxRecDepth 16384

/-- constants.rs: database structure constants used by the reader. -/
def COUNTRY_BEGIN : Nat := 16776960

/-- constants.rs: state data begin offset for region edition revision 0. -/
def STATE_BEGIN_REV0 : Nat := 16700000

/-- constants.rs: state data begin offset for region edition revision 1. -/
def STATE_BEGIN_REV1 : Nat := 16000000

/-- constants.rs: maximum number of trailer scan iterations. -/
def STRUCTURE_INFO_MAX_SIZE : Nat := 20

/-- constants.rs: standard record length. -/
def STANDARD_RECORD_LENGTH : Nat := 3

/-- constants.rs: organization record length. -/
def ORG_RECORD_LENGTH : Nat := 4

/-- constants.rs: full record length, the size of the record buffer. -/
def FULL_RECORD_LENGTH : Nat := 50

/-- constants.rs: country edition identifier. -/
def COUNTRY_EDITION : Nat := 1

/-- constants.rs: region edition revision 0 identifier. -/
def REGION_EDITION_REV0 : Nat := 7

/-- constants.rs: region edition revision 1 identifier. -/
def REGION_EDITION_REV1 : Nat := 3

/-- constants.rs: city edition revision 0 identifier. -/
def CITY_EDITION_REV0 : Nat := 6

/-- constants.rs: city edition revision 1 identifier. -/
def CITY_EDITION_REV1 : Nat := 2

/-- constants.rs: city edition revision 1 for IPv6 identifier. -/
def CITY_EDITION_REV1_V6 : Nat := 30

/-- constants.rs: organization edition identifier. -/
def ORG_EDITION : Nat := 5

/-- constants.rs: internet service provider edition identifier. -/
def ISP_EDITION : Nat := 4

/-- constants.rs: autonomous system number edition identifier. -/
def ASNUM_EDITION : Nat := 9

/-- constants.rs: autonomous system number edition for IPv6 identifier. -/
def ASNUM_EDITION_V6 : Nat := 21

/-- errors.rs: the complete error enumeration of the crate.  Note that it
has no InvalidAddress and no MalformedRecord variant. -/
inductive GeoIpReaderError
  | GetHostByNameError
  | InvalidDatabaseType
  | OpenFileError
  | CorruptDatabase
  deriving DecidableEq, Repr

/-- utils.rs read_data, inner loop: walk the buffer from the given index
while the byte is nonzero, returning the index of the first zero byte, or
none when the walk falls off the end of the buffer (the Rust code panics
with an index-out-of-bounds there). -/
def findZero : List Nat → Nat → Option Nat
  | [], _ => none
  | b :: rest, idx => if b = 0 then some idx else findZero rest (idx + 1)

/-- utils.rs read_data: null-terminated string extraction.  Returns the
index of the terminating zero byte together with the bytes strictly
between the start position and the terminator (none when that range is
empty); the outer none models the index-out-of-bounds panic taken when no
terminator exists before the end of the buffer. -/
def read_data (buffer : List Nat) (pos : Nat) : Option (Nat × Option (List Nat)) :=
  match findZero (buffer.drop pos) pos with
  | none => none
  | some cur =>
    some (cur, if pos < cur then some ((buffer.drop pos).take (cur - pos)) else none)

/-- utils.rs ip_to_number outcome: the Rust function either returns a u128
value or panics with an invalid-address message. -/
inductive ParseOutcome
  | value (v : Nat)
  | panicked (msg : String)
  deriving DecidableEq, Repr

/-- Model of one dotted-decimal octet of Rust std Ipv4Addr FromStr: one to
three ASCII digits, no leading zero, value at most 255. -/
def parseDecOctet (cs : List Char) : Option Nat :=
  if cs.length = 0 ∨ 3 < cs.length then none
  else if ¬ cs.all Char.isDigit then none
  else if 1 < cs.length ∧ cs.headD 'x' = '0' then none
  else
    let v := cs.foldl (fun a c => a * 10 + (c.toNat - 48)) 0
    if v ≤ 255 then some v else none

/-- List splitting on a separator character, used by the address parser
models. -/
def splitOnChar (sep : Char) : List Char → List (List Char)
  | [] => [[]]
  | c :: rest =>
    let r := splitOnChar sep rest
    if c = sep then [] :: r
    else
      match r with
      | g :: gs => (c :: g) :: gs
      | [] => [[c]]

/-- Model of Rust std Ipv4Addr FromStr followed by u32::from: four octets
separated by dots, combined big-endian. -/
def parse_ipv4_chars (cs : List Char) : Option Nat :=
  match splitOnChar '.' cs with
  | [a, b, c, d] =>
    match parseDecOctet a, parseDecOctet b, parseDecOctet c, parseDecOctet d with
    | some va, some vb, some vc, some vd =>
      some (va * 16777216 + vb * 65536 + vc * 256 + vd)
    | _, _, _, _ => none
  | _ => none

/-- Hexadecimal digit test for the IPv6 parser model. -/
def isHexChar (c : Char) : Bool :=
  c.isDigit || (97 ≤ c.toNat && c.toNat ≤ 102) || (65 ≤ c.toNat && c.toNat ≤ 70)

/-- Hexadecimal digit value for the IPv6 parser model. -/
def hexVal (c : Char) : Nat :=
  if c.isDigit then c.toNat - 48
  else if 97 ≤ c.toNat then c.toNat - 87
  else c.toNat - 55

/-- Model of one 16-bit group of Rust std Ipv6Addr FromStr: one to four
hexadecimal digits. -/
def parseHexGroup (cs : List Char) : Option Nat :=
  if cs.length = 0 ∨ 4 < cs.length then none
  else if ¬ cs.all isHexChar then none
  else some (cs.foldl (fun a c => a * 16 + hexVal c) 0)

/-- Split at the first occurrence of two adjacent colons, for the IPv6
parser model. -/
def splitDoubleColon : List Char → Option (List Char × List Char)
  | [] => none
  | c :: rest =>
    if c = ':' then
      match rest with
      | c2 :: rest2 =>
        if c2 = ':' then some ([], rest2)
        else (splitDoubleColon rest).map (fun p => (c :: p.1, p.2))
      | [] => none
    else (splitDoubleColon rest).map (fun p => (c :: p.1, p.2))

/-- Parse a list of colon-separated parts as plain hexadecimal groups. -/
def parseHexGroups : List (List Char) → Option (List Nat)
  | [] => some []
  | g :: gs =>
    match parseHexGroup g, parseHexGroups gs with
    | some v, some vs => some (v :: vs)
    | _, _ => none

/-- Parse trailing groups of an IPv6 address: hexadecimal groups where the
final group may instead be an embedded dotted-quad IPv4 address,
contributing two 16-bit groups. -/
def parseTailGroups (parts : List (List Char)) : Option (List Nat) :=
  match parseHexGroups parts with
  | some vs => some vs
  | none =>
    match parts.reverse with
    | [] => none
    | last :: revInit =>
      match parseHexGroups revInit.reverse, parse_ipv4_chars last with
      | some vs, some v4 => some (vs ++ [v4 / 65536, v4 % 65536])
      | _, _ => none

/-- Model of Rust std Ipv6Addr FromStr, producing the eight 16-bit
segments: optional double-colon compression standing for one or more zero
groups, otherwise exactly eight groups; an embedded IPv4 address is
allowed in final position. -/
def parse_ipv6_chars (cs : List Char) : Option (List Nat) :=
  match splitDoubleColon cs with
  | some (h, t) =>
    if (splitDoubleColon t).isSome then none
    else
      let hparts := if h.isEmpty then [] else splitOnChar ':' h
      let tparts := if t.isEmpty then [] else splitOnChar ':' t
      match parseHexGroups hparts, parseTailGroups tparts with
      | some hg, some tg =>
        if hg.length + tg.length ≤ 7 then
          some (hg ++ List.replicate (8 - hg.length - tg.length) 0 ++ tg)
        else none
      | _, _ => none
  | none =>
    match parseTailGroups (splitOnChar ':' cs) with
    | some g => if g.length = 8 then some g else none
    | none => none

/-- utils.rs ip_to_number: try IPv4 first, then IPv6 with the source's
segment combination (s0 shifted 112) or (s1 shifted 96) or (s2 shifted 64)
or s3 - note segments 4 to 7 are dropped and segment 2 lands at bit 64 -
else panic with the invalid-address message. -/
def ip_to_number (s : String) : ParseOutcome :=
  match parse_ipv4_chars s.data with
  | some v => .value v
  | none =>
    match parse_ipv6_chars s.data with
    | some segs =>
      .value (Nat.lor (Nat.lor (Nat.lor (segs.getD 0 0 <<< 112) (segs.getD 1 0 <<< 96))
        (segs.getD 2 0 <<< 64)) (segs.getD 3 0))
    | none => .panicked ("Invalid IP address: " ++ s)

/-- geo_ip_reader.rs get_country: length of the decimal string of the ip
number, as produced by to_string. -/
def decimal_len (n : Nat) : Nat := if n = 0 then 1 else (Nat.digits 10 n).length

/-- geo_ip_reader.rs get_country: 127 when the decimal string of the ip
number is longer than 10 characters, else 31. -/
def seekDepth (n : Nat) : Nat := if 10 < decimal_len n then 127 else 31

/-- geo_ip_reader.rs get_country node decoding: x at index i is the
little-endian record-length-byte value read at byte offset
2 * record_length * offset + record_length * i of the database. -/
def nodeValue (db : Nat → Nat) (rl offset i : Nat) : Nat :=
  (List.range rl).foldl (fun acc j => acc + db (2 * rl * offset + rl * i + j) * 2 ^ (8 * j)) 0

/-- geo_ip_reader.rs get_country loop: the fuel argument is the current
depth plus one (the loop runs depth from seek_depth down to 0); sd is the
seek depth, used to compute the netmask the code stores.  Returns the
chosen child value together with that netmask, or CorruptDatabase when
the bit budget is exhausted. -/
def get_country_go (db : Nat → Nat) (rl sb ip sd : Nat) :
    Nat → Nat → Except GeoIpReaderError (Nat × Nat)
  | _, 0 => .error .CorruptDatabase
  | offset, d + 1 =>
    let x0 := nodeValue db rl offset 0
    let x1 := nodeValue db rl offset 1
    if ip.testBit d then
      if sb ≤ x1 then .ok (x1, sd - d + 1) else get_country_go db rl sb ip sd x1 d
    else
      if sb ≤ x0 then .ok (x0, sd - d + 1) else get_country_go db rl sb ip sd x0 d

/-- geo_ip_reader.rs get_country: binary-tree search over the database db
with record length rl and segment base sb, for the numeric address ip. -/
def get_country (db : Nat → Nat) (rl sb ip : Nat) : Except GeoIpReaderError (Nat × Nat) :=
  get_country_go db rl sb ip (seekDepth ip) 0 (seekDepth ip + 1)

/-- geo_ip_reader.rs detect_database_type: test for the 0xFF 0xFF 0xFF
header at byte position p. -/
def markerAt (db : Nat → Nat) (p : Nat) : Bool :=
  db p == 255 && db (p + 1) == 255 && db (p + 2) == 255

/-- geo_ip_reader.rs detect_database_type: the 3-byte little-endian
segment count read at byte position p. -/
def le3 (db : Nat → Nat) (p : Nat) : Nat :=
  db p + db (p + 1) * 256 + db (p + 2) * 65536

/-- geo_ip_reader.rs detect_database_type, once the marker was found: p is
the position of the edition byte; result is the triple (database_type,
record_length, database_segments). -/
def applyEdition (db : Nat → Nat) (p : Nat) : Nat × Nat × Nat :=
  let b := db p
  let e := if 106 ≤ b then b - 105 else b
  if e = REGION_EDITION_REV0 then (e, STANDARD_RECORD_LENGTH, STATE_BEGIN_REV0)
  else if e = REGION_EDITION_REV1 then (e, STANDARD_RECORD_LENGTH, STATE_BEGIN_REV1)
  else if e = CITY_EDITION_REV0 ∨ e = CITY_EDITION_REV1 ∨ e = CITY_EDITION_REV1_V6 ∨
      e = ORG_EDITION ∨ e = ISP_EDITION ∨ e = ASNUM_EDITION ∨ e = ASNUM_EDITION_V6 then
    (e, if e = ORG_EDITION ∨ e = ISP_EDITION then ORG_RECORD_LENGTH else STANDARD_RECORD_LENGTH,
      le3 db (p + 1))
  else (e, STANDARD_RECORD_LENGTH, COUNTRY_BEGIN)

/-- geo_ip_reader.rs detect_database_type scan loop: try the marker at
position p; on failure the Rust code seeks four bytes back from the
position after the three-byte read, so the next window starts at p - 1. -/
def detectLoop (db : Nat → Nat) : Nat → Nat → Nat × Nat × Nat
  | _, 0 => (COUNTRY_EDITION, STANDARD_RECORD_LENGTH, COUNTRY_BEGIN)
  | p, fuel + 1 =>
    if markerAt db p then applyEdition db (p + 3) else detectLoop db (p - 1) fuel

/-- geo_ip_reader.rs detect_database_type: scan starts three bytes before
the end of the file and makes at most STRUCTURE_INFO_MAX_SIZE tries. -/
def detect_database_type (db : Nat → Nat) (len : Nat) : Nat × Nat × Nat :=
  detectLoop db (len - 3) STRUCTURE_INFO_MAX_SIZE

/-- Static geography tables consumed by get_record, abstracted as data:
the four per-country-index lists, the DMA-code map and the time-zone map.
The record decoder is parameterized over them. -/
structure Tables where
  cc2 : List String
  cc3 : List String
  names : List String
  continents : List String
  dmas : Nat → Option String
  tz : String → List Nat → Option String

/-- geo_ip_reader.rs get_record result map, as a closed record: one field
per key the code inserts.  Byte-list fields stand for the lossily decoded
strings; the coordinates are exact rationals. -/
structure GeoRecord where
  dma_code : Option Nat
  area_code : Option Nat
  metro_code : Option String
  postal_code : Option (List Nat)
  country_code : Option String
  country_code3 : Option String
  country_name : Option String
  continent : Option String
  region_code : Option (List Nat)
  city : Option (List Nat)
  latitude : Option ℚ
  longitude : Option ℚ
  time_zone : Option String
  deriving DecidableEq, Repr

/-- Outcome of a get_record call: a panic (some unwrap or indexing
failed), the empty map returned when the terminal offset equals the
segment count, or a populated record. -/
inductive LookupOutcome
  | panicked
  | emptyRecord
  | found (r : GeoRecord)
  deriving DecidableEq, Repr

/-- geo_ip_reader.rs get_record: 3-byte little-endian read from the
50-byte record buffer; none models the index-out-of-bounds panic. -/
def le3buf (buffer : List Nat) (off : Nat) : Option Nat :=
  match buffer[off]?, buffer[off + 1]?, buffer[off + 2]? with
  | some a, some b, some c => some (a + b * 256 + c * 65536)
  | _, _, _ => none

/-- Byte list of the ASCII string used as the fallback region key for the
time-zone lookup in get_record. -/
def defaultKeyBytes : List Nat := [100, 101, 102, 97, 117, 108, 116]

/-- geo_ip_reader.rs get_record, record decoding part: read the 50-byte
record buffer at absolute byte position start, resolve the country index
through the four tables (an out-of-bounds index panics), read the three
null-terminated strings, the two 3-byte coordinates, and for city
revision 1 editions of United States records the packed DMA triple and
the metro name; finally resolve the time zone. -/
def decode_at (db : Nat → Nat) (dbtype : Nat) (t : Tables) (start : Nat) : LookupOutcome :=
  let buffer := (List.range FULL_RECORD_LENGTH).map (fun i => db (start + i))
  let ci := buffer.getD 0 0
  match t.cc2[ci]?, t.cc3[ci]?, t.names[ci]?, t.continents[ci]? with
  | some c2, some c3, some cname, some cont =>
    (match read_data buffer 1 with
     | none => .panicked
     | some (p1, region) =>
       match read_data buffer (p1 + 1) with
       | none => .panicked
       | some (p2, city) =>
         match read_data buffer (p2 + 1) with
         | none => .panicked
         | some (p3, postal) =>
           let off := p3 + 1
           match le3buf buffer off, le3buf buffer (off + 3) with
           | some latRaw, some lonRaw =>
             let lat : ℚ := (latRaw : ℚ) / 10000 - 180
             let lon : ℚ := (lonRaw : ℚ) / 10000 - 180
             let tzone : Option String :=
               some ((t.tz c2 (region.getD defaultKeyBytes)).getD (""))
             if (dbtype = CITY_EDITION_REV1 ∨ dbtype = CITY_EDITION_REV1_V6) ∧ c2 = "US" then
               match le3buf buffer (off + 6) with
               | some dmaArea =>
                 .found
                   { dma_code := some (dmaArea / 1000)
                     area_code := some (dmaArea % 1000)
                     metro_code := some ((t.dmas (dmaArea / 1000)).getD (""))
                     postal_code := postal
                     country_code := some c2
                     country_code3 := some c3
                     country_name := some cname
                     continent := some cont
                     region_code := region
                     city := city
                     latitude := some lat
                     longitude := some lon
                     time_zone := tzone }
               | none => .panicked
             else
               .found
                 { dma_code := some 0
                   area_code := some 0
                   metro_code := none
                   postal_code := postal
                   country_code := some c2
                   country_code3 := some c3
                   country_name := some cname
                   continent := some cont
                   region_code := region
                   city := city
                   latitude := some lat
                   longitude := some lon
                   time_zone := tzone }
           | _, _ => .panicked)
  | _, _, _, _ => .panicked

/-- geo_ip_reader.rs get_record: the u128 to u32 conversion done with
try_into on the parsed address; none models the unwrap panic. -/
def try_into_u32 (n : Nat) : Option Nat := if n < 4294967296 then some n else none

/-- geo_ip_reader.rs get_record: parse the textual address, convert it to
u32, run the tree search, return the empty map when the terminal offset
equals database_segments, else decode the record at byte position
seek_country + (2 * record_length - 1) * database_segments. -/
def get_record (db : Nat → Nat) (rl sb dbtype : Nat) (t : Tables) (ip : String) :
    LookupOutcome :=
  match ip_to_number ip with
  | .panicked _ => .panicked
  | .value n =>
    match try_into_u32 n with
    | none => .panicked
    | some ip32 =>
      match get_country db rl sb ip32 with
      | .error _ => .panicked
      | .ok (v, _) =>
        if v = sb then .emptyRecord
        else decode_at db dbtype t (v + (2 * rl - 1) * sb)

/-- Mutable reader state threaded by the stateful methods: the stored
netmask and the stream position of the reader's own file handle (the
fields of GeoIpReader that lookups assign; record_length,
database_segments and database_type are fixed at open and passed
separately). -/
structure MutState where
  netmask : Nat
  pos : Nat
  deriving DecidableEq, Repr

/-- geo_ip_reader.rs get_country with its state effect: on success the
netmask field is assigned; the reader's own stream position is untouched
because every node read goes through a freshly opened reader. -/
def get_country_st (db : Nat → Nat) (rl sb ip : Nat) (s : MutState) :
    (Except GeoIpReaderError Nat) × MutState :=
  match get_country db rl sb ip with
  | .ok (v, nm) => (.ok v, { s with netmask := nm })
  | .error e => (.error e, s)

/-- geo_ip_reader.rs get_record with its state effects: the netmask is
assigned by the inner get_country, and on the record-reading path the
stream position ends just after the 50-byte record read (the seek is to
an absolute position, so the prior position is never consulted). -/
def get_record_st (db : Nat → Nat) (rl sb dbtype : Nat) (t : Tables) (ip : String)
    (s : MutState) : LookupOutcome × MutState :=
  match ip_to_number ip with
  | .panicked _ => (.panicked, s)
  | .value n =>
    match try_into_u32 n with
    | none => (.panicked, s)
    | some ip32 =>
      match get_country db rl sb ip32 with
      | .error _ => (.panicked, s)
      | .ok (v, nm) =>
        if v = sb then (.emptyRecord, { s with netmask := nm })
        else (decode_at db dbtype t (v + (2 * rl - 1) * sb),
          { netmask := nm, pos := v + (2 * rl - 1) * sb + FULL_RECORD_LENGTH })

/-- designated_market_area.rs: the dma_code accessor of the packed
DesignatedMarketArea value. -/
def dma_code (v : Nat) : Nat := v / 1000

/-- designated_market_area.rs: the area_code accessor of the packed
DesignatedMarketArea value. -/
def area_code (v : Nat) : Nat := v % 1000

/-- countries_codes_three.rs: the 255-entry three-letter country code
table, index 0 the absent sentinel. -/
def COUNTRY_CODES_THREE : List String := [
  "", "AP", "EU", "AND", "ARE", "AFG", "ATG", "AIA", "ALB", "ARM", "ANT", "AGO", "AQ", "ARG",
  "ASM", "AUT", "AUS", "ABW", "AZE", "BIH", "BRB", "BGD", "BEL", "BFA", "BGR", "BHR", "BDI",
  "BEN", "BMU", "BRN", "BOL", "BRA", "BHS", "BTN", "BV", "BWA", "BLR", "BLZ", "CAN", "CC", "COD",
  "CAF", "COG", "CHE", "CIV", "COK", "CHL", "CMR", "CHN", "COL", "CRI", "CUB", "CPV", "CX",
  "CYP", "CZE", "DEU", "DJI", "DNK", "DMA", "DOM", "DZA", "ECU", "EST", "EGY", "ESH", "ERI",
  "ESP", "ETH", "FIN", "FJI", "FLK", "FSM", "FRO", "FRA", "FX", "GAB", "GBR", "GRD", "GEO",
  "GUF", "GHA", "GIB", "GRL", "GMB", "GIN", "GLP", "GNQ", "GRC", "GS", "GTM", "GUM", "GNB",
  "GUY", "HKG", "HM", "HND", "HRV", "HTI", "HUN", "IDN", "IRL", "ISR", "IND", "IO", "IRQ", "IRN",
  "ISL", "ITA", "JAM", "JOR", "JPN", "KEN", "KGZ", "KHM", "KIR", "COM", "KNA", "PRK", "KOR",
  "KWT", "CYM", "KAZ", "LAO", "LBN", "LCA", "LIE", "LKA", "LBR", "LSO", "LTU", "LUX", "LVA",
  "LBY", "MAR", "MCO", "MDA", "MDG", "MHL", "MKD", "MLI", "MMR", "MNG", "MAC", "MNP", "MTQ",
  "MRT", "MSR", "MLT", "MUS", "MDV", "MWI", "MEX", "MYS", "MOZ", "NAM", "NCL", "NER", "NFK",
  "NGA", "NIC", "NLD", "NOR", "NPL", "NRU", "NIU", "NZL", "OMN", "PAN", "PER", "PYF", "PNG",
  "PHL", "PAK", "POL", "SPM", "PCN", "PRI", "PSE", "PRT", "PLW", "PRY", "QAT", "REU", "ROU",
  "RUS", "RWA", "SAU", "SLB", "SYC", "SDN", "SWE", "SGP", "SHN", "SVN", "SJM", "SVK", "SLE",
  "SMR", "SEN", "SOM", "SUR", "STP", "SLV", "SYR", "SWZ", "TCA", "TCD", "TF", "TGO", "THA",
  "TJK", "TKL", "TKM", "TUN", "TON", "TLS", "TUR", "TTO", "TUV", "TWN", "TZA", "UKR", "UGA",
  "UM", "USA", "URY", "UZB", "VAT", "VCT", "VEN", "VGB", "VIR", "VNM", "VUT", "WLF", "WSM",
  "YEM", "YT", "SRB", "ZAF", "ZMB", "MNE", "ZWE", "A1", "A2", "O1", "ALA", "GGY", "IMN", "JEY",
  "BLM", "MAF", "BES", "SSD"]

/-- continent_names.rs: the 255-entry continent code table, indexed by
country index, index 0 the absent sentinel. -/
def CONTINENT_NAMES : List String := [
  "--", "AS", "EU", "EU", "AS", "AS", "NA", "NA", "EU", "AS", "NA", "AF", "AN", "SA", "OC", "EU",
  "OC", "NA", "AS", "EU", "NA", "AS", "EU", "AF", "EU", "AS", "AF", "AF", "NA", "AS", "SA", "SA",
  "NA", "AS", "AN", "AF", "EU", "NA", "NA", "AS", "AF", "AF", "AF", "EU", "AF", "OC", "SA", "AF",
  "AS", "SA", "NA", "NA", "AF", "AS", "AS", "EU", "EU", "AF", "EU", "NA", "NA", "AF", "SA", "EU",
  "AF", "AF", "AF", "EU", "AF", "EU", "OC", "SA", "OC", "EU", "EU", "NA", "AF", "EU", "NA", "AS",
  "SA", "AF", "EU", "NA", "AF", "AF", "NA", "AF", "EU", "AN", "NA", "OC", "AF", "SA", "AS", "AN",
  "NA", "EU", "NA", "EU", "AS", "EU", "AS", "AS", "AS", "AS", "AS", "EU", "EU", "NA", "AS", "AS",
  "AF", "AS", "AS", "OC", "AF", "NA", "AS", "AS", "AS", "NA", "AS", "AS", "AS", "NA", "EU", "AS",
  "AF", "AF", "EU", "EU", "EU", "AF", "AF", "EU", "EU", "AF", "OC", "EU", "AF", "AS", "AS", "AS",
  "OC", "NA", "AF", "NA", "EU", "AF", "AS", "AF", "NA", "AS", "AF", "AF", "OC", "AF", "OC", "AF",
  "NA", "EU", "EU", "AS", "OC", "OC", "OC", "AS", "NA", "SA", "OC", "OC", "AS", "AS", "EU", "NA",
  "OC", "NA", "AS", "EU", "OC", "SA", "AS", "AF", "EU", "EU", "AF", "AS", "OC", "AF", "AF", "EU",
  "AS", "AF", "EU", "EU", "EU", "AF", "EU", "AF", "AF", "SA", "AF", "NA", "AS", "AF", "NA", "AF",
  "AN", "AF", "AS", "AS", "OC", "AS", "AF", "OC", "AS", "EU", "NA", "OC", "AS", "AF", "EU", "AF",
  "OC", "NA", "SA", "AS", "EU", "NA", "SA", "NA", "NA", "AS", "OC", "OC", "OC", "AS", "AF", "EU",
  "AF", "AF", "EU", "AF", "--", "--", "--", "EU", "EU", "EU", "EU", "NA", "NA", "NA", "AF"]

/-- Modelled from the spec: src/src/countries_codes_two.rs is not present
in the source tree (lib.rs declares the module but the file is absent).
Per the spec the two-letter code table is a per-country-index table of
exactly 255 entries with index 0 the absent sentinel; the entries past
the sentinel are not fixed by the spec and only the count and the
sentinel matter to the claims, so they are filled with a placeholder. -/
def COUNTRY_CODES_TWO : List String := [""] ++ List.replicate 254 ("?2")

/-- Modelled from the spec: src/src/countries_names.rs is not present in
the source tree (lib.rs declares the module but the file is absent).  Per
the spec the country name table is a per-country-index table of exactly
255 entries with index 0 the absent sentinel; the entries past the
sentinel are not fixed by the spec and only the count and the sentinel
matter to the claims, so they are filled with a placeholder. -/
def COUNTRY_NAMES : List String := [""] ++ List.replicate 254 ("?name")

/-- Helper: every outcome of the get_country loop is an ok value at least
the segment base, or the corrupt-database error. -/
lemma get_country_go_ok_or_corrupt (db : Nat → Nat) (rl sb ip sd : Nat) :
    ∀ (fuel offset : Nat),
      (∃ v nm, get_country_go db rl sb ip sd offset fuel = .ok (v, nm) ∧ sb ≤ v) ∨
        get_country_go db rl sb ip sd offset fuel = .error .CorruptDatabase := by
  intro fuel
  induction fuel with
  | zero => intro offset; exact Or.inr rfl
  | succ d ih =>
    intro offset
    rw [get_country_go]
    cases hb : ip.testBit d <;> simp only [Bool.false_eq_true, if_true, if_false]
    · by_cases h0 : sb ≤ nodeValue db rl offset 0
      · exact Or.inl ⟨nodeValue db rl offset 0, sd - d + 1, by rw [if_pos h0], h0⟩
      · rw [if_neg h0]; exact ih (nodeValue db rl offset 0)
    · by_cases h1 : sb ≤ nodeValue db rl offset 1
      · exact Or.inl ⟨nodeValue db rl offset 1, sd - d + 1, by rw [if_pos h1], h1⟩
      · rw [if_neg h1]; exact ih (nodeValue db rl offset 1)

/-- C1: for every database and every address, the binary-tree search
(get_country) returns either a terminal child value at least the segment
base (database_segments, here sb) together with the stored netmask, or the
CorruptDatabase error when the bit budget is exhausted; it never returns a
tree-node index strictly below the segment base. -/
theorem c1_lookup_offset_terminal_or_corrupt (db : Nat → Nat) (rl sb ip : Nat) :
    (∃ v nm, get_country db rl sb ip = .ok (v, nm) ∧ sb ≤ v) ∨
      get_country db rl sb ip = .error .CorruptDatabase :=
  get_country_go_ok_or_corrupt db rl sb ip (seekDepth ip) (seekDepth ip + 1) 0

/-- Helper: a number below 10 to the power 10 has at most ten decimal
digits. -/
lemma decimal_len_le_ten (n : Nat) (h : n < 4294967296) : decimal_len n ≤ 10 := by
  unfold decimal_len
  by_cases h0 : n = 0
  · simp [h0]
  · rw [if_neg h0]
    by_contra hlen
    push_neg at hlen
    have h1 : (10 : Nat) ^ 11 ≤ 10 ^ (Nat.digits 10 n).length :=
      Nat.pow_le_pow_right (by norm_num) hlen
    have h2 : 10 ^ (Nat.digits 10 n).length ≤ 10 * n :=
      Nat.base_pow_length_digits_le 10 n (by norm_num) h0
    have h3 : (10 : Nat) ^ 11 = 100000000000 := by norm_num
    omega

/-- C2: the claim that seek_depth is 127 for 128-bit addresses fails on
the code.  First conjunct: get_country receives a u32, and every u32 has
at most ten decimal digits, so its seek depth is always 31 and the
127 branch is dead.  Second and third conjuncts evaluate the failing
input: the IPv6 address 1:2:3:4:5:6:7:8 parses to a value at least 2 to
the 32, so the try_into u32 conversion performed by get_record panics
before any tree descent can happen; no IPv6 lookup ever consumes 128 bits
from bit position 127. -/
theorem c2_seek_depth_always_31 :
    (∀ n : Nat, n < 4294967296 → seekDepth n = 31) ∧
      ip_to_number "1:2:3:4:5:6:7:8" = .value (2 ^ 112 + 2 * 2 ^ 96 + 3 * 2 ^ 64 + 4) ∧
      try_into_u32 (2 ^ 112 + 2 * 2 ^ 96 + 3 * 2 ^ 64 + 4) = none := by
  refine ⟨fun n h => ?_, by decide, by decide⟩
  unfold seekDepth
  have hle := decimal_len_le_ten n h
  rw [if_neg (by omega)]

/-- Witness for the c2 theorem: the hypothesis, discharged at the u32
value 3232235777 (the address 192.168.1.1). -/
theorem c2_seek_depth_always_31_witness :
    3232235777 < 4294967296 ∧ seekDepth 3232235777 = 31 :=
  ⟨by norm_num, c2_seek_depth_always_31.1 3232235777 (by norm_num)⟩

/-- C8: for every representable (u32) packed DesignatedMarketArea value,
dma_code times 1000 plus area_code recovers the value. -/
theorem c8_dma_roundtrip (v : Nat) (h : v < 4294967296) :
    dma_code v * 1000 + area_code v = v := by
  unfold dma_code area_code
  omega

/-- Witness for the c8 theorem at the packed value 80700 (dma_code 80,
area_code 700). -/
theorem c8_dma_roundtrip_witness :
    80700 < 4294967296 ∧ dma_code 80700 * 1000 + area_code 80700 = 80700 :=
  ⟨by norm_num, c8_dma_roundtrip 80700 (by norm_num)⟩

/-- Helper: the result component of the stateful get_country does not
depend on the incoming mutable state. -/
lemma get_country_st_fst (db : Nat → Nat) (rl sb ip : Nat) (s : MutState) :
    (get_country_st db rl sb ip s).1 =
      (get_country db rl sb ip).map (fun p => p.1) := by
  unfold get_country_st
  cases hg : get_country db rl sb ip with
  | error e => rfl
  | ok p => cases p; rfl

/-- Helper: the result component of the stateful get_record equals the
pure get_record and so does not depend on the incoming mutable state. -/
lemma get_record_st_fst (db : Nat → Nat) (rl sb dbtype : Nat) (t : Tables) (ip : String)
    (s : MutState) :
    (get_record_st db rl sb dbtype t ip s).1 = get_record db rl sb dbtype t ip := by
  unfold get_record_st get_record
  cases hp : ip_to_number ip with
  | panicked m => rfl
  | value n =>
    simp only
    cases ht : try_into_u32 n with
    | none => rfl
    | some ip32 =>
      simp only
      cases hg : get_country db rl sb ip32 with
      | error e => rfl
      | ok p =>
        cases p with
        | mk v nm =>
          by_cases hv : v = sb <;> simp [hv]

/-- C10: lookups are deterministic and their observable result does not
depend on the mutable reader state (stored netmask and stream position):
the result of get_country and of get_record is the same from any two
states, and repeating the same lookup from the state the first invocation
left behind returns the same result.  The database itself is a pure byte
function in this embedding because the code never writes to it. -/
theorem c10_lookups_deterministic (db : Nat → Nat) (rl sb dbtype n : Nat) (t : Tables)
    (ip : String) (s1 s2 : MutState) :
    (get_country_st db rl sb n s1).1 = (get_country_st db rl sb n s2).1 ∧
      (get_record_st db rl sb dbtype t ip s1).1 = (get_record_st db rl sb dbtype t ip s2).1 ∧
      (get_country_st db rl sb n (get_country_st db rl sb n s1).2).1 =
        (get_country_st db rl sb n s1).1 ∧
      (get_record_st db rl sb dbtype t ip (get_record_st db rl sb dbtype t ip s1).2).1 =
        (get_record_st db rl sb dbtype t ip s1).1 := by
  refine ⟨?_, ?_, ?_, ?_⟩
  · rw [get_country_st_fst, get_country_st_fst]
  · rw [get_record_st_fst, get_record_st_fst]
  · rw [get_country_st_fst, get_country_st_fst]
  · rw [get_record_st_fst, get_record_st_fst]

/-- Helper counterexample input: the bytes of the string HelloWorld,
which contains no zero terminator. -/
def helloWorldBytes : List Nat := [72, 101, 108, 108, 111, 87, 111, 114, 108, 100]

/-- Helper input: the bytes of the string Hello, a zero terminator, then
the bytes of the string World. -/
def helloZeroWorldBytes : List Nat := [72, 101, 108, 108, 111, 0, 87, 111, 114, 108, 100]

/-- C6 counterexample: the claim says an invalid address fails with an
InvalidAddress error surfaced at the API boundary rather than crashing
the process.  On the code, ip_to_number applied to the string consisting
of one dash takes the explicit panic branch (modelled as the panicked
outcome), and the crate's error enumeration (GeoIpReaderError, embedded
above directly from errors.rs) has no InvalidAddress variant at all, so
no such error value can ever be produced. -/
theorem c6_invalid_address_panics :
    ip_to_number "-" = .panicked ("Invalid IP address: -") := by decide

/-- C6 amended: for every input string that parses as neither IPv4 nor
IPv6, ip_to_number fails by panicking with the invalid-address message (a
process crash), not by returning an error value; and every value of the
crate's error enumeration is one of its four variants, none of which is
an InvalidAddress. -/
theorem c6_parser_panics_on_invalid (s : String)
    (h4 : parse_ipv4_chars s.data = none) (h6 : parse_ipv6_chars s.data = none) :
    ip_to_number s = .panicked ("Invalid IP address: " ++ s) ∧
      ∀ e : GeoIpReaderError, e = .GetHostByNameError ∨ e = .InvalidDatabaseType ∨
        e = .OpenFileError ∨ e = .CorruptDatabase := by
  constructor
  · unfold ip_to_number
    rw [h4, h6]
  · intro e
    cases e
    · exact Or.inl rfl
    · exact Or.inr (Or.inl rfl)
    · exact Or.inr (Or.inr (Or.inl rfl))
    · exact Or.inr (Or.inr (Or.inr rfl))

/-- Witness for the c6 amended theorem at the input consisting of one
dash, the failing input named by the specification. -/
theorem c6_parser_panics_on_invalid_witness :
    ip_to_number "-" = .panicked ("Invalid IP address: " ++ "-") :=
  (c6_parser_panics_on_invalid "-" (by decide) (by decide)).1

/-- Helper: walking a list with no zero byte finds no terminator. -/
lemma findZero_of_no_zero : ∀ (l : List Nat) (idx : Nat), (∀ b ∈ l, b ≠ 0) →
    findZero l idx = none := by
  intro l
  induction l with
  | nil => intro idx _; rfl
  | cons b rest ih =>
    intro idx h
    unfold findZero
    rw [if_neg (h b (List.mem_cons_self b rest))]
    exact ih (idx + 1) (fun x hx => h x (List.mem_cons_of_mem b hx))

/-- Helper: walking a list whose first zero byte sits at index k finds the
terminator at start index plus k. -/
lemma findZero_first_zero : ∀ (l : List Nat) (k idx : Nat), l[k]? = some 0 →
    (∀ j, j < k → l[j]? ≠ some 0) → findZero l idx = some (idx + k) := by
  intro l
  induction l with
  | nil => intro k idx h _; simp at h
  | cons b rest ih =>
    intro k idx h hj
    cases k with
    | zero =>
      rw [List.getElem?_cons_zero, Option.some_inj] at h
      unfold findZero
      rw [if_pos h, Nat.add_zero]
    | succ k2 =>
      have hb : b ≠ 0 := by
        intro hb0
        exact hj 0 (Nat.succ_pos k2) (by rw [List.getElem?_cons_zero, hb0])
      unfold findZero
      rw [if_neg hb]
      have hrec := ih k2 (idx + 1) (by rw [List.getElem?_cons_succ] at h; exact h)
        (fun j hjk => by
          have := hj (j + 1) (Nat.succ_lt_succ hjk)
          rwa [List.getElem?_cons_succ] at this)
      rw [hrec]
      congr 1
      omega

/-- C5 part of the claim that holds, amended only in the failure mode:
read_data applied to a buffer at a position returns the index of the
terminating zero byte together with the bytes of the buffer strictly
between position and terminator (none for the empty string, in particular
when the position itself holds the terminator); when no zero byte exists
at or after the position, the operation does not produce a
MalformedRecord error (the crate has no such error) but panics with an
index out of bounds, modelled as the none outcome. -/
theorem c5_read_data_characterization (buffer : List Nat) (pos e : Nat) :
    (buffer[e]? = some 0 → pos ≤ e → (∀ i, i < e → pos ≤ i → buffer[i]? ≠ some 0) →
      read_data buffer pos =
        some (e, if pos < e then some ((buffer.drop pos).take (e - pos)) else none)) ∧
    ((∀ i, i < buffer.length → pos ≤ i → buffer[i]? ≠ some 0) →
      read_data buffer pos = none) := by
  constructor
  · intro he hpe hmin
    unfold read_data
    have hfz : findZero (buffer.drop pos) pos = some (pos + (e - pos)) := by
      apply findZero_first_zero
      · rw [List.getElem?_drop]
        have : pos + (e - pos) = e := by omega
        rw [this]
        exact he
      · intro j hj
        rw [List.getElem?_drop]
        exact hmin (pos + j) (by omega) (by omega)
    rw [hfz]
    have hpe2 : pos + (e - pos) = e := by omega
    rw [hpe2]
  · intro hall
    unfold read_data
    have hfz : findZero (buffer.drop pos) pos = none := by
      apply findZero_of_no_zero
      intro b hb
      obtain ⟨i, hi⟩ := List.mem_iff_get?.mp hb
      rw [List.get?_eq_getElem?, List.getElem?_drop] at hi
      intro hb0
      have hlen : pos + i < buffer.length := by
        by_contra hge
        rw [List.getElem?_eq_none (by omega)] at hi
        exact Option.noConfusion hi
      exact hall (pos + i) hlen (by omega) (by rw [hi, hb0])
    rw [hfz]

/-- Witness for the c5 theorem: both conjuncts discharged on concrete
buffers; the first on the Hello-zero-World buffer with the terminator at
index 5, the second on the terminator-free HelloWorld buffer. -/
theorem c5_read_data_characterization_witness :
    read_data helloZeroWorldBytes 0 = some (5, some [72, 101, 108, 108, 111]) ∧
      read_data helloWorldBytes 3 = none :=
  ⟨(c5_read_data_characterization helloZeroWorldBytes 0 5).1 (by decide) (by decide)
      (by decide),
    (c5_read_data_characterization helloWorldBytes 3 0).2 (by decide)⟩

/-- C5 counterexample for the failure mode the claim states: on a buffer
with no zero terminator (the bytes of HelloWorld) the operation does not
fail with a MalformedRecord error - the crate's error enumeration has no
such variant - it panics with an index out of bounds, modelled as the
none outcome.  The crate's own test suite asserts this panic
(test_read_data_with_no_null_terminator expects index out of bounds). -/
theorem c5_no_terminator_is_a_panic : read_data helloWorldBytes 0 = none := by decide

/-- Helper: when no window in range carries the marker, the detector scan
returns the defaults. -/
lemma detectLoop_no_marker (db : Nat → Nat) :
    ∀ (fuel p : Nat), (∀ k, k < fuel → markerAt db (p - k) = false) →
      detectLoop db p fuel = (COUNTRY_EDITION, STANDARD_RECORD_LENGTH, COUNTRY_BEGIN) := by
  intro fuel
  induction fuel with
  | zero => intro p _; rfl
  | succ f ih =>
    intro p h
    unfold detectLoop
    rw [show markerAt db p = false from by simpa using h 0 (Nat.succ_pos f), if_neg]
    · exact ih (p - 1) (fun k hk => by
        rw [Nat.sub_sub]
        exact h (1 + k) (by omega))
    · simp

/-- Helper: the detector scan stops at the first window carrying the
marker and applies the edition rules at the byte after it. -/
lemma detectLoop_first_marker (db : Nat → Nat) :
    ∀ (fuel k p : Nat), k < fuel → (∀ j, j < k → markerAt db (p - j) = false) →
      markerAt db (p - k) = true →
      detectLoop db p fuel = applyEdition db (p - k + 3) := by
  intro fuel
  induction fuel with
  | zero => intro k p hk _ _; omega
  | succ f ih =>
    intro k p hk hfirst hmark
    unfold detectLoop
    cases k with
    | zero =>
      rw [Nat.sub_zero] at hmark
      rw [if_pos hmark, Nat.sub_zero]
    | succ k2 =>
      have h0 : markerAt db p = false := by simpa using hfirst 0 (Nat.succ_pos k2)
      rw [h0, if_neg (by simp)]
      have hsub : p - 1 - k2 = p - (k2 + 1) := by omega
      have hrec := ih k2 (p - 1) (by omega)
        (fun j hj => by
          have hsj : p - 1 - j = p - (j + 1) := by omega
          rw [hsj]
          exact hfirst (j + 1) (by omega))
        (by rw [hsub]; exact hmark)
      rw [hrec, hsub]

/-- Helper: the per-edition table of applyEdition, written as the flat
case distinction used in the c3 theorem statement. -/
lemma applyEdition_table (db : Nat → Nat) (p : Nat) :
    applyEdition db p =
      (let b := db p
       let e := if 106 ≤ b then b - 105 else b
       if e = 7 then (e, 3, 16700000)
       else if e = 3 then (e, 3, 16000000)
       else if e = 5 ∨ e = 4 then (e, 4, le3 db (p + 1))
       else if e = 6 ∨ e = 2 ∨ e = 30 ∨ e = 9 ∨ e = 21 then (e, 3, le3 db (p + 1))
       else (e, 3, 16776960)) := by
  unfold applyEdition COUNTRY_BEGIN STATE_BEGIN_REV0 STATE_BEGIN_REV1
    STANDARD_RECORD_LENGTH ORG_RECORD_LENGTH REGION_EDITION_REV0 REGION_EDITION_REV1
    CITY_EDITION_REV0 CITY_EDITION_REV1 CITY_EDITION_REV1_V6 ORG_EDITION ISP_EDITION
    ASNUM_EDITION ASNUM_EDITION_V6
  dsimp only
  split_ifs <;> first | rfl | (exfalso; omega)

/-- C3: behaviour of the edition detector.  First conjunct: when none of
the twenty windows (starting at end minus 3 and stepping back one byte
per failed try, because the code seeks back four bytes from the position
after the three-byte read) carries the 0xFF 0xFF 0xFF marker, the
defaults remain: Country edition, record width 3, segment base 16776960.
Second conjunct: at the first window that carries the marker, the edition
byte b is read, the edition is b minus 105 when b is at least 106 and b
otherwise, and the edition table is applied: Region revision 0 maps to
segment base 16700000, Region revision 1 to 16000000, Org and ISP read
the next three little-endian bytes with record width 4, the city and ASN
editions read the next three little-endian bytes with record width 3, and
anything else keeps the Country defaults. -/
theorem c3_edition_detector (db : Nat → Nat) (len : Nat) (hlen : 23 ≤ len) :
    ((∀ k, k < 20 → markerAt db (len - 3 - k) = false) →
      detect_database_type db len = (1, 3, 16776960)) ∧
    (∀ k, k < 20 → (∀ j, j < k → markerAt db (len - 3 - j) = false) →
      markerAt db (len - 3 - k) = true →
      detect_database_type db len =
        (let b := db (len - 3 - k + 3)
         let e := if 106 ≤ b then b - 105 else b
         if e = 7 then (e, 3, 16700000)
         else if e = 3 then (e, 3, 16000000)
         else if e = 5 ∨ e = 4 then (e, 4, le3 db (len - 3 - k + 4))
         else if e = 6 ∨ e = 2 ∨ e = 30 ∨ e = 9 ∨ e = 21 then (e, 3, le3 db (len - 3 - k + 4))
         else (e, 3, 16776960))) := by
  constructor
  · intro h
    exact detectLoop_no_marker db STRUCTURE_INFO_MAX_SIZE (len - 3) h
  · intro k hk hfirst hmark
    unfold detect_database_type
    rw [detectLoop_first_marker db STRUCTURE_INFO_MAX_SIZE k (len - 3) hk hfirst hmark]
    rw [applyEdition_table]

/-- Witness for the c3 theorem: a database of 23 zero bytes has no marker
in any window, so the detector returns the Country defaults. -/
theorem c3_edition_detector_witness :
    detect_database_type (fun _ => 0) 23 = (1, 3, 16776960) :=
  (c3_edition_detector (fun _ => 0) 23 (by norm_num)).1 (fun k _ => rfl)

/-- C4: when the tree search returns a terminal offset equal to the
segment count, get_record returns the empty map without reading any
record bytes; otherwise the record bytes are decoded starting at byte
position v + (2 * record_length - 1) * database_segments. -/
theorem c4_record_read_position (db : Nat → Nat) (rl sb dbtype : Nat) (t : Tables)
    (ip : String) (n v nm : Nat) (hp : ip_to_number ip = .value n) (hn : n < 4294967296)
    (hg : get_country db rl sb n = .ok (v, nm)) :
    (v = sb → get_record db rl sb dbtype t ip = .emptyRecord) ∧
      (v ≠ sb → get_record db rl sb dbtype t ip =
        decode_at db dbtype t (v + (2 * rl - 1) * sb)) := by
  constructor <;> intro hv <;>
  · unfold get_record try_into_u32
    rw [hp]
    dsimp only
    rw [if_pos hn]
    dsimp only
    rw [hg]
    simp [hv]

/-- Test fixture: a database whose every byte is 1; its root node has
both children equal to 65793, which is at least any small segment base,
so the tree search succeeds immediately. -/
def onesDb : Nat → Nat := fun _ => 1

/-- Test fixture: geography tables with two entries per list and empty
maps, enough for a record whose country index is 0 or 1. -/
def smallTables : Tables :=
  { cc2 := ["", "AA"]
    cc3 := ["", "AAA"]
    names := ["", "Aland"]
    continents := ["--", "AS"]
    dmas := fun _ => none
    tz := fun _ _ => none }

/-- Witness for the c4 theorem: on the all-ones database with segment
base 1, the address 0.0.0.0 parses to 0, the tree search returns the
terminal value 65793, which differs from the segment base, so get_record
decodes the record at position 65793 + (2 * 3 - 1) * 1. -/
theorem c4_record_read_position_witness :
    get_record onesDb 3 1 6 smallTables "0.0.0.0" =
      decode_at onesDb 6 smallTables (65793 + (2 * 3 - 1) * 1) :=
  (c4_record_read_position onesDb 3 1 6 smallTables "0.0.0.0" 0 65793 1
    (by decide) (by norm_num) (by rfl)).2 (by norm_num)

/-- Helper: an index below 255 is in bounds for a 255-entry list. -/
lemma isSome_of_lt_length {α : Type} (l : List α) (i : Nat) (h : i < l.length) :
    (l[i]?).isSome := by
  rw [List.getElem?_eq_getElem h]
  rfl

/-- C9: for every country index below 255, the four per-country table
lookups performed by the record decoder (two-letter code, three-letter
code, country name, continent) are in bounds, so the out-of-bounds panic
branch of the table indexing is unreachable; and each table has exactly
255 entries with index 0 holding the absent sentinel.  The three-letter
and continent tables are embedded from the source; the two-letter and
name tables are modelled from the spec because their source files are
absent from the tree. -/
theorem c9_table_lookups_in_bounds :
    (∀ i, i < 255 →
      (COUNTRY_CODES_TWO[i]?).isSome ∧ (COUNTRY_CODES_THREE[i]?).isSome ∧
        (COUNTRY_NAMES[i]?).isSome ∧ (CONTINENT_NAMES[i]?).isSome) ∧
      COUNTRY_CODES_TWO.length = 255 ∧ COUNTRY_CODES_THREE.length = 255 ∧
      COUNTRY_NAMES.length = 255 ∧ CONTINENT_NAMES.length = 255 ∧
      COUNTRY_CODES_THREE[0]? = some ("") ∧ CONTINENT_NAMES[0]? = some ("--") ∧
      COUNTRY_CODES_TWO[0]? = some ("") ∧ COUNTRY_NAMES[0]? = some ("") := by
  have l2 : COUNTRY_CODES_TWO.length = 255 := by rfl
  have l3 : COUNTRY_CODES_THREE.length = 255 := by rfl
  have ln : COUNTRY_NAMES.length = 255 := by rfl
  have lc : CONTINENT_NAMES.length = 255 := by rfl
  refine ⟨fun i hi => ⟨?_, ?_, ?_, ?_⟩, l2, l3, ln, lc, ?_, ?_, ?_, ?_⟩
  · exact isSome_of_lt_length COUNTRY_CODES_TWO i (by omega)
  · exact isSome_of_lt_length COUNTRY_CODES_THREE i (by omega)
  · exact isSome_of_lt_length COUNTRY_NAMES i (by omega)
  · exact isSome_of_lt_length CONTINENT_NAMES i (by omega)
  · rfl
  · rfl
  · rfl
  · rfl

/-- Witness for the c9 theorem at index 124 (Lebanon in the embedded
tables). -/
theorem c9_table_lookups_in_bounds_witness :
    (COUNTRY_CODES_TWO[124]?).isSome ∧ (COUNTRY_CODES_THREE[124]?).isSome ∧
      (COUNTRY_NAMES[124]?).isSome ∧ (CONTINENT_NAMES[124]?).isSome :=
  c9_table_lookups_in_bounds.1 124 (by norm_num)

/-- Helper: a 3-byte little-endian read from a buffer of bytes is at most
16777215 and never sign-extends. -/
lemma le3buf_bound (buffer : List Nat) (off v : Nat) (hb : ∀ b ∈ buffer, b < 256)
    (h : le3buf buffer off = some v) : v ≤ 16777215 := by
  unfold le3buf at h
  cases h0 : buffer[off]? with
  | none => rw [h0] at h; exact absurd h (by simp)
  | some a =>
    cases h1 : buffer[off + 1]? with
    | none => rw [h0, h1] at h; exact absurd h (by simp)
    | some b =>
      cases h2 : buffer[off + 2]? with
      | none => rw [h0, h1, h2] at h; exact absurd h (by simp)
      | some c =>
        rw [h0, h1, h2] at h
        have ha := hb a (List.getElem?_mem h0)
        have hbb := hb b (List.getElem?_mem h1)
        have hc := hb c (List.getElem?_mem h2)
        have hv : a + b * 256 + c * 65536 = v := by
          have := Option.some_inj.mp h
          omega
        omega

/-- Helper: the latitude and longitude fields of every record produced by
decode_at are the rational raw / 10000 - 180 for a raw value read by
le3buf from the record buffer, which consists of database bytes. -/
lemma decode_at_coords (db : Nat → Nat) (dbtype : Nat) (t : Tables) (start : Nat)
    (r : GeoRecord) (hfound : decode_at db dbtype t start = .found r) :
    ∃ off latRaw lonRaw,
      le3buf ((List.range FULL_RECORD_LENGTH).map (fun i => db (start + i))) off =
          some latRaw ∧
        le3buf ((List.range FULL_RECORD_LENGTH).map (fun i => db (start + i))) (off + 3) =
          some lonRaw ∧
        r.latitude = some ((latRaw : ℚ) / 10000 - 180) ∧
        r.longitude = some ((lonRaw : ℚ) / 10000 - 180) := by
  unfold decode_at at hfound
  dsimp only at hfound
  split at hfound
  · split at hfound
    · exact absurd hfound (by simp)
    · split at hfound
      · exact absurd hfound (by simp)
      · split at hfound
        · exact absurd hfound (by simp)
        · split at hfound
          · split at hfound
            · split at hfound
              · rename_i hlat hlon hus xdma dmaArea hdma
                cases LookupOutcome.found.inj hfound
                exact ⟨_, _, _, hlat, hlon, rfl, rfl⟩
              · exact absurd hfound (by simp)
            · rename_i hlat hlon hus
              cases LookupOutcome.found.inj hfound
              exact ⟨_, _, _, hlat, hlon, rfl, rfl⟩
          · exact absurd hfound (by simp)
  · exact absurd hfound (by simp)

/-- C7 amended: for every city record, the decoded latitude and longitude
(raw 24-bit unsigned little-endian value divided by 10000 minus 180, with
no sign extension, modelled exactly over the rationals) satisfy
-180 <= x <= 1497.7215; the exact upper bound 1497.7215 is attained at
raw value 16777215 and exceeds the 1497.7 stated by the claim. -/
theorem c7_coordinate_bounds (db : Nat → Nat) (dbtype : Nat) (t : Tables) (start : Nat)
    (r : GeoRecord) (hdb : ∀ i, db i < 256)
    (hfound : decode_at db dbtype t start = .found r) :
    (∀ q, r.latitude = some q → -180 ≤ q ∧ q ≤ 14977215 / 10000) ∧
      (∀ q, r.longitude = some q → -180 ≤ q ∧ q ≤ 14977215 / 10000) := by
  obtain ⟨off, latRaw, lonRaw, hlat, hlon, hrlat, hrlon⟩ :=
    decode_at_coords db dbtype t start r hfound
  have hbuf : ∀ b ∈ (List.range FULL_RECORD_LENGTH).map (fun i => db (start + i)), b < 256 := by
    intro b hb
    obtain ⟨i, _, hib⟩ := List.mem_map.mp hb
    rw [← hib]
    exact hdb (start + i)
  have hlatB := le3buf_bound _ off latRaw hbuf hlat
  have hlonB := le3buf_bound _ (off + 3) lonRaw hbuf hlon
  constructor <;> intro q hq
  · rw [hrlat, Option.some_inj] at hq
    have hcast : (latRaw : ℚ) ≤ 16777215 := by exact_mod_cast hlatB
    have hpos : (0 : ℚ) ≤ (latRaw : ℚ) := by positivity
    constructor <;> [skip; skip] <;> rw [← hq] <;> [linarith; linarith]
  · rw [hrlon, Option.some_inj] at hq
    have hcast : (lonRaw : ℚ) ≤ 16777215 := by exact_mod_cast hlonB
    have hpos : (0 : ℚ) ≤ (lonRaw : ℚ) := by positivity
    constructor <;> [skip; skip] <;> rw [← hq] <;> [linarith; linarith]

/-- Test fixture: a record whose country index is 1, whose three strings
are empty, and whose six coordinate bytes are all 0xFF, giving the
maximal raw coordinate value 16777215. -/
def c7db : Nat → Nat := fun i =>
  if i = 0 then 1 else if i < 4 then 0 else if i < 10 then 255 else 0

/-- Test value: the decoded coordinate of the maximal raw value, exactly
1497.7215. -/
def c7lat : ℚ := (16777215 : ℚ) / 10000 - 180

/-- Test fixture: the record decode_at produces from c7db under
smallTables with the city revision 0 edition. -/
def c7rec : GeoRecord :=
  { dma_code := some 0
    area_code := some 0
    metro_code := none
    postal_code := none
    country_code := some ("AA")
    country_code3 := some ("AAA")
    country_name := some ("Aland")
    continent := some ("AS")
    region_code := none
    city := none
    latitude := some c7lat
    longitude := some c7lat
    time_zone := some ("") }

/-- C7 counterexample: the claim bounds every decoded coordinate by
1497.7, but a city record whose three coordinate bytes are all 0xFF
decodes (exactly, over the rationals) to 16777215 / 10000 - 180 =
1497.7215, which exceeds 1497.7.  The decode is performed by the
embedded record decoder on a concrete record buffer. -/
theorem c7_latitude_exceeds_stated_bound :
    decode_at c7db 6 smallTables 0 = .found c7rec ∧
      c7rec.latitude = some c7lat ∧ 14977 / 10 < c7lat := by
  refine ⟨by rfl, rfl, ?_⟩
  unfold c7lat
  norm_num

/-- Witness for the c7 amended theorem: the bounds instantiated at the
concrete record of the counterexample fixture, whose latitude attains the
exact maximum 1497.7215. -/
theorem c7_coordinate_bounds_witness :
    (-180 : ℚ) ≤ c7lat ∧ c7lat ≤ 14977215 / 10000 :=
  (c7_coordinate_bounds c7db 6 smallTables 0 c7rec
      (fun i => by unfold c7db; split_ifs <;> norm_num)
      (by rfl)).1 c7lat rfl

end Ipcap
